import Mathlib

/-!
Verification of the MusicGen training orchestrator
(`src/ai-service/training_orchestrator.py`).

The orchestrator supervises an external training job, extracts metrics from
its log lines, and makes a Go/No-Go decision at a configured elapsed-time
milestone.  This file gives a shallow embedding of the orchestrator's pure
logic and proves (or refutes) the specified properties.

Modelling conventions:
* Python floats are modelled as rationals (`ℚ`).  The initial
  `best_val_loss = float('inf')` is modelled as `none : Option ℚ`
  (`some l` is a finite loss); the helper functions spell out the
  comparisons `x < inf` (always true) and `inf > t` (always true) that the
  Python code performs against the infinite initial value.
* Python strings are processed as `List Char`.  `str.split(sep)`,
  `str.split()`, `str.strip()`, the `in` substring test, `int(...)` and
  `float(...)` are embedded below; `int`/`float` are modelled on
  optional-sign decimal literals (digits with an optional fractional part),
  with every other input a parse error, matching `ValueError` on malformed
  text.  (Exponent, underscore, and `inf`/`nan` literal forms accepted by
  CPython are outside the log-line grammar used by this program and are
  treated as errors.)
* In-place mutation of the orchestrator object is explicit state passing;
  the `try/except: pass` around per-line parsing is an `Except` fold that
  stops at the first raising segment and keeps the updates already applied.
-/

namespace Orchestrator

/-! ## Python string primitives -/

/-- Splits a character list at every character satisfying `p`, keeping empty
segments, like Python `str.split(sep)` for a one-character separator. -/
def splitOnPred (p : Char → Bool) : List Char → List (List Char)
  | [] => [[]]
  | c :: cs =>
    if p c then [] :: splitOnPred p cs
    else
      match splitOnPred p cs with
      | [] => [[c]]
      | w :: ws => (c :: w) :: ws

/-- Python `s.split(sep)` for a single-character separator `sep`. -/
def splitOnChar (sep : Char) (l : List Char) : List (List Char) :=
  splitOnPred (fun c => c == sep) l

/-- Python `s.split()`: split on whitespace runs, discarding empty pieces. -/
def pySplitWs (l : List Char) : List (List Char) :=
  (splitOnPred Char.isWhitespace l).filter (fun w => !w.isEmpty)

/-- Python `s.strip()`: remove leading and trailing whitespace. -/
def trimChars (l : List Char) : List Char :=
  ((l.dropWhile Char.isWhitespace).reverse.dropWhile Char.isWhitespace).reverse

/-- Python `needle in haystack`: substring test. -/
def containsSub (needle : List Char) : List Char → Bool
  | [] => needle.isEmpty
  | c :: cs => List.isPrefixOf needle (c :: cs) || containsSub needle cs

/-- Numeric value of a digit string (most significant first). -/
def digitsVal (l : List Char) : Nat :=
  l.foldl (fun a c => a * 10 + (c.toNat - 48)) 0

/-- Python `int(s)` on optional-sign decimal integer literals; `none` models
a raised `ValueError`. -/
def pyInt (l : List Char) : Option Int :=
  match trimChars l with
  | [] => none
  | c :: rest =>
    if c = '-' then
      if rest ≠ [] ∧ rest.all Char.isDigit then some (-(digitsVal rest : Int)) else none
    else if c = '+' then
      if rest ≠ [] ∧ rest.all Char.isDigit then some (digitsVal rest : Int) else none
    else
      if (c :: rest).all Char.isDigit then some (digitsVal (c :: rest) : Int) else none

/-- Unsigned decimal literal: `digits`, `digits.digits`, `digits.` or
`.digits` (at least one digit overall). -/
def pyFloatBody (body : List Char) : Option ℚ :=
  match splitOnChar '.' body with
  | [ip] =>
    if ip ≠ [] ∧ ip.all Char.isDigit then some (digitsVal ip : ℚ) else none
  | [ip, fp] =>
    if (ip ≠ [] ∨ fp ≠ []) ∧ ip.all Char.isDigit ∧ fp.all Char.isDigit then
      some ((digitsVal ip : ℚ) + (digitsVal fp : ℚ) / (10 : ℚ) ^ fp.length)
    else none
  | _ => none

/-- Python `float(s)` on optional-sign decimal literals; `none` models a
raised `ValueError`. -/
def pyFloat (l : List Char) : Option ℚ :=
  match trimChars l with
  | [] => none
  | c :: rest =>
    if c = '-' then (pyFloatBody rest).map (fun q => -q)
    else if c = '+' then pyFloatBody rest
    else pyFloatBody (c :: rest)

/-! ## Training state and metric extraction (lines 47-51 and 156-178) -/

/-- Mutable monitoring state of the orchestrator (lines 48-50).
`best_val_loss = none` models the initial `float('inf')`.
`observations` records the `(global_step, val_loss)` pairs emitted to the
TensorBoard metrics sink by `writer.add_scalar` (line 171): exactly the
successfully extracted validation-loss observations, in order. -/
structure TrainingState where
  current_epoch : Int
  global_step : Int
  best_val_loss : Option ℚ
  observations : List (Int × ℚ)
deriving DecidableEq, Repr

/-- Initial state set in `__init__` (lines 48-50). -/
def initialTrainingState : TrainingState :=
  { current_epoch := 0, global_step := 0, best_val_loss := none, observations := [] }

/-- Python `v < best` where `best` may be `float('inf')` (`none`):
anything is below infinity. -/
def ltInf (v : ℚ) : Option ℚ → Bool
  | none => true
  | some b => decide (v < b)

def epochLit : List Char := "Epoch".toList
def stepLit : List Char := "Step".toList
def lossLit : List Char := "Loss".toList
def valLossLit : List Char := "Val Loss".toList

/-- One iteration of the `for part in parts` body (lines 164-175).
`Except.error` models a raised exception (IndexError from `split()[1]` or
ValueError from `int`/`float`); state updates already made by earlier parts
are retained by the caller. -/
def processPart (st : TrainingState) (part : List Char) : Except Unit TrainingState :=
  if containsSub epochLit part then
    match (pySplitWs part)[1]? with
    | none => .error ()
    | some w =>
      match pyInt ((splitOnChar '/' w).headD []) with
      | none => .error ()
      | some n => .ok { st with current_epoch := n }
  else if containsSub stepLit part then
    match (pySplitWs part)[1]? with
    | none => .error ()
    | some w =>
      match pyInt w with
      | none => .error ()
      | some n => .ok { st with global_step := n }
  else if containsSub valLossLit part then
    match (splitOnChar ':' part)[1]? with
    | none => .error ()
    | some w =>
      match pyFloat (trimChars w) with
      | none => .error ()
      | some v =>
        let st' := { st with observations := st.observations ++ [(st.global_step, v)] }
        .ok (if ltInf v st'.best_val_loss then { st' with best_val_loss := some v } else st')
  else .ok st

/-- The `for part in parts` loop under the surrounding `try` (lines 160-178):
a raised exception stops the loop but keeps the updates of earlier parts
(the `except: pass` on lines 177-178 swallows it). -/
def processParts : TrainingState → List (List Char) → TrainingState
  | st, [] => st
  | st, p :: ps =>
    match processPart st p with
    | .error _ => st
    | .ok st' => processParts st' ps

/-- `parse_training_metrics` (lines 156-178). -/
def parse_training_metrics (st : TrainingState) (log_line : String) : TrainingState :=
  if containsSub stepLit log_line.toList && containsSub lossLit log_line.toList then
    processParts st (splitOnChar '|' log_line.toList)
  else st

/-! ## Milestone evaluation and decision engine (lines 180-289) -/

/-- The `go_nogo_thresholds` sub-record of the configuration (lines 69-73). -/
structure Thresholds where
  min_authenticity_score : ℚ
  max_cost_usd : ℚ
  max_val_loss : ℚ
deriving DecidableEq, Repr

/-- Default thresholds (lines 70-72): 0.35, 600, 3.5. -/
def defaultThresholds : Thresholds :=
  { min_authenticity_score := 35 / 100, max_cost_usd := 600, max_val_loss := 35 / 10 }

/-- Embeds line 218: `max(0.0, 1.0 - (self.best_val_loss / 10.0))`.
`none` models the initial `float('inf')`: in Python,
`1.0 - inf / 10.0 = -inf` and `max(0.0, -inf) = 0.0`. -/
def estimatedAuthenticity : Option ℚ → ℚ
  | none => 0
  | some l => max 0 (1 - l / 10)

/-- Modelled from the spec: `clamp(1 - best_validation_loss / 10, 0, 1)`.
For the initial infinite loss the value being clamped is `-inf`, so the
clamped score is 0. -/
def clampSpecAuthenticity : Option ℚ → ℚ
  | none => 0
  | some l => min 1 (max 0 (1 - l / 10))

/-- The Week 5 metrics snapshot built by `evaluate_week_5_performance`
(lines 220-228). -/
structure MilestoneMetrics where
  elapsed_days : ℚ
  elapsed_hours : ℚ
  cost_usd : ℚ
  current_epoch : Int
  best_val_loss : Option ℚ
  estimated_authenticity : ℚ
  global_step : Int
deriving DecidableEq, Repr

/-- `evaluate_week_5_performance` (lines 208-241): pure snapshot
construction from the elapsed wall-clock seconds, the configured GPU hourly
rate and the training state (file I/O and logging omitted). -/
def evaluate_week_5_performance (gpu_cost_per_hour : ℚ) (elapsed_seconds : ℚ)
    (st : TrainingState) : MilestoneMetrics :=
  { elapsed_days := elapsed_seconds / 86400
    elapsed_hours := elapsed_seconds / 3600
    cost_usd := elapsed_seconds / 3600 * gpu_cost_per_hour
    current_epoch := st.current_epoch
    best_val_loss := st.best_val_loss
    estimated_authenticity := estimatedAuthenticity st.best_val_loss
    global_step := st.global_step }

/-- Tags for the failure-reason strings appended on lines 252-273; one
constructor per `failures.append` site, in source order. -/
inductive Reason where
  | authenticity
  | cost
  | valLoss
deriving DecidableEq, Repr

/-- Tags for the warning strings appended on lines 257 and 266. -/
inductive Warning where
  | authBorderline
  | costApproaching
deriving DecidableEq, Repr

/-- The ternary decision returned by `make_go_nogo_decision`
('GO', 'NO-GO', 'CONDITIONAL-GO'). -/
inductive Decision where
  | go
  | noGo
  | conditionalGo
deriving DecidableEq, Repr

/-- Python `best > t` where `best` may be `float('inf')` (`none`):
infinity exceeds every threshold. -/
def infGt (b : Option ℚ) (t : ℚ) : Bool :=
  match b with
  | none => true
  | some v => decide (t < v)

/-- The authenticity check (lines 250-257): `if` failure, `elif` warning. -/
def checkAuthenticity (m : MilestoneMetrics) (t : Thresholds) :
    List Reason × List Warning :=
  if m.estimated_authenticity < t.min_authenticity_score then
    ([Reason.authenticity], [])
  else if m.estimated_authenticity < t.min_authenticity_score + 5 / 100 then
    ([], [Warning.authBorderline])
  else ([], [])

/-- The cost check (lines 259-266): `if` failure, `elif` warning. -/
def checkCost (m : MilestoneMetrics) (t : Thresholds) :
    List Reason × List Warning :=
  if t.max_cost_usd < m.cost_usd then
    ([Reason.cost], [])
  else if t.max_cost_usd * (8 / 10) < m.cost_usd then
    ([], [Warning.costApproaching])
  else ([], [])

/-- The validation-loss check (lines 268-273): failure only, no warning. -/
def checkValLoss (m : MilestoneMetrics) (t : Thresholds) : List Reason :=
  if infGt m.best_val_loss t.max_val_loss then [Reason.valLoss] else []

/-- `make_go_nogo_decision` (lines 243-289): the decision together with the
collected failure and warning lists (built by the three sequential checks
and consumed by the decision logic on lines 276-289; in the source the two
lists are logged rather than returned). -/
def make_go_nogo_decision (m : MilestoneMetrics) (t : Thresholds) :
    Decision × List Reason × List Warning :=
  let a := checkAuthenticity m t
  let c := checkCost m t
  let failures := a.1 ++ c.1 ++ checkValLoss m t
  let warnings := a.2 ++ c.2
  if failures ≠ [] then (Decision.noGo, failures, warnings)
  else if warnings ≠ [] then (Decision.conditionalGo, failures, warnings)
  else (Decision.go, failures, warnings)

/-! ## The monitoring loop as a state machine (lines 100-206) -/

/-- The slice of the configuration driving the monitoring loop
(lines 67-73). -/
structure OrchConfig where
  gpu_cost_per_hour : ℚ
  week_5_threshold_days : ℚ
  go_nogo_thresholds : Thresholds
deriving DecidableEq, Repr

/-- Default values of those fields (lines 67-73): $1.30/hour, 35 days. -/
def defaultOrchConfig : OrchConfig :=
  { gpu_cost_per_hour := 13 / 10
    week_5_threshold_days := 35
    go_nogo_thresholds := defaultThresholds }

/-- Orchestrator state threaded through the monitoring loop.
`week_5_metrics = none` models the `None` set in `__init__` (line 51);
`aborted` records that `abort_training` ran `sys.exit(1)` (line 316), after
which no further line is consumed; `evalCount` counts how many times the
milestone evaluation (snapshot construction plus decision, lines 192-195)
has fired. -/
structure OrchState where
  ts : TrainingState
  week_5_metrics : Option MilestoneMetrics
  aborted : Bool
  evalCount : Nat
deriving DecidableEq, Repr

/-- State at the start of `run_training_loop` (lines 48-51): fresh training
state, no milestone metrics, not aborted. -/
def initialOrchState : OrchState :=
  { ts := initialTrainingState, week_5_metrics := none, aborted := false, evalCount := 0 }

/-- `check_week_5_milestone` (lines 180-206) at a moment when
`time.time() - training_start_time = elapsed_seconds`:
returns immediately if already evaluated (lines 182-183); otherwise fires
when `elapsed_days >= week_5_threshold_days` (line 187), storing the
snapshot and aborting on a NO-GO decision (line 203). -/
def check_week_5_milestone (cfg : OrchConfig) (elapsed_seconds : ℚ) (s : OrchState) :
    OrchState :=
  match s.week_5_metrics with
  | some _ => s
  | none =>
    if cfg.week_5_threshold_days ≤ elapsed_seconds / 86400 then
      let metrics := evaluate_week_5_performance cfg.gpu_cost_per_hour elapsed_seconds s.ts
      let d := make_go_nogo_decision metrics cfg.go_nogo_thresholds
      { s with week_5_metrics := some metrics
               evalCount := s.evalCount + 1
               aborted := decide (d.1 = Decision.noGo) }
    else s

/-- The body of the `for line in process.stdout` loop (lines 133-140):
parse the line, then run the milestone check.  An event pairs the line text
with the elapsed seconds since run start when it arrives.  After
`sys.exit(1)` (`aborted`) no further event is consumed. -/
def processLine (cfg : OrchConfig) (s : OrchState) (ev : String × ℚ) : OrchState :=
  if s.aborted then s
  else
    let s' := { s with ts := parse_training_metrics s.ts ev.1 }
    check_week_5_milestone cfg ev.2 s'

/-- The whole monitoring loop over a sequence of output-line events. -/
def runLines (cfg : OrchConfig) (s : OrchState) (events : List (String × ℚ)) : OrchState :=
  events.foldl (processLine cfg) s

/-! ## Process exit status (lines 142-154, 291-316, 337-347) -/

/-- Exit status of an orchestrator run whose monitoring loop consumes
`events` and whose training child then exits with `childCode`:
`abort_training` exits with status 1 (line 316); on every other path
`run_training_loop` returns normally — including a nonzero child exit,
which is only logged (lines 144-145), and exceptions caught on lines
149-154 — and `main` falls through, so the interpreter exits with
status 0.  `childCode` is deliberately unused: the child's exit code never
reaches the orchestrator's own exit status. -/
def runExitStatus (cfg : OrchConfig) (events : List (String × ℚ)) (childCode : Int) : Nat :=
  if (runLines cfg initialOrchState events).aborted then 1 else 0

/-- Exit status of the Python interpreter when an exception escapes `main`
uncaught — e.g. malformed JSON at `json.load` during `load_config`
(lines 76-79) before any process is spawned.  CPython exits with status 1
on an uncaught exception; this is the generic failure code. -/
def pythonUncaughtExitStatus : Nat := 1

/-! ## Configuration loading (lines 53-81) -/

/-- Values storable in the configuration dictionary. -/
inductive ConfigValue where
  | str (v : String)
  | rat (v : ℚ)
  | thresholds (t : Thresholds)
deriving DecidableEq, Repr

/-- The `default_config` dictionary (lines 55-74), as an association list
in source order. -/
def default_config : List (String × ConfigValue) :=
  [("model_name", ConfigValue.str "facebook/musicgen-small"),
   ("dataset_dir", ConfigValue.str "./datasets/amapiano_proxy"),
   ("checkpoint_dir", ConfigValue.str "./checkpoints/phase_2_5"),
   ("tensorboard_dir", ConfigValue.str "./runs/phase_2_5"),
   ("batch_size", ConfigValue.rat 8),
   ("learning_rate", ConfigValue.rat (1 / 100000)),
   ("num_epochs", ConfigValue.rat 20),
   ("gradient_accumulation_steps", ConfigValue.rat 4),
   ("warmup_steps", ConfigValue.rat 500),
   ("save_every_n_steps", ConfigValue.rat 1000),
   ("eval_every_n_steps", ConfigValue.rat 500),
   ("gpu_cost_per_hour", ConfigValue.rat (13 / 10)),
   ("week_5_threshold_days", ConfigValue.rat 35),
   ("go_nogo_thresholds", ConfigValue.thresholds defaultThresholds)]

/-- `load_config` (lines 53-81): the returned configuration, viewed as a
key-lookup function.  `custom` is the parsed document (empty when no
config path is given or the file does not exist, lines 76-79);
`default_config.update(custom_config)` (line 79) makes a key of the
document win over the default, and a key absent from both absent from the
result — in particular an unknown key of the document IS inserted into the
resulting dictionary. -/
def load_config (custom : List (String × ConfigValue)) (k : String) : Option ConfigValue :=
  match List.lookup k custom with
  | some v => some v
  | none => List.lookup k default_config

/-! ## Entry point (lines 337-347) -/

/-- The parsed command-line arguments (lines 341-344): an optional config
document (already read from the `--config` path; `none` when the path is
missing or nonexistent) and the `--resume` flag. -/
structure CliArgs where
  config : Option (List (String × ConfigValue))
  resume : Bool

/-- Embeds `main` (lines 337-347): the orchestrator is built from the
configuration alone.  The parsed `args.resume` flag is never read after
parsing, and no checkpoint-load operation exists anywhere in the source;
the second component counts checkpoint-load invocations performed during
startup, which is 0 on every path. -/
def mainStartup (args : CliArgs) : (String → Option ConfigValue) × Nat :=
  (load_config (args.config.getD []), 0)

/-! ## Helper lemmas: best-validation-loss bookkeeping -/

/-- Order on losses with `none` as positive infinity. -/
def infLE : Option ℚ → Option ℚ → Prop
  | _, none => True
  | none, some _ => False
  | some a, some b => a ≤ b

lemma infLE_refl (a : Option ℚ) : infLE a a := by
  cases a <;> simp [infLE]

lemma infLE_trans {a b c : Option ℚ} (h1 : infLE a b) (h2 : infLE b c) : infLE a c := by
  cases a <;> cases b <;> cases c <;> simp_all [infLE] <;> exact le_trans h1 h2

/-- Running minimum over observed losses, starting from infinity. -/
def minStep (a : Option ℚ) (v : ℚ) : Option ℚ :=
  match a with
  | none => some v
  | some b => some (min b v)

/-- Minimum of a list of observed losses (`none` for the empty list). -/
def obsMin (l : List ℚ) : Option ℚ := l.foldl minStep none

/-- Shape of a successful single-part update: unchanged, an epoch update,
a step update, or a validation-loss observation with a conditional
best-loss update. -/
lemma processPart_cases (st : TrainingState) (p : List Char) (st' : TrainingState)
    (h : processPart st p = .ok st') :
    st' = st ∨
    (∃ n, st' = { st with current_epoch := n }) ∨
    (∃ n, st' = { st with global_step := n }) ∨
    (∃ v, (ltInf v st.best_val_loss = true ∧
            st' = { st with observations := st.observations ++ [(st.global_step, v)],
                            best_val_loss := some v }) ∨
          (ltInf v st.best_val_loss = false ∧
            st' = { st with observations := st.observations ++ [(st.global_step, v)] })) := by
  unfold processPart at h
  split at h
  · split at h
    · exact absurd h (by simp)
    · split at h
      · exact absurd h (by simp)
      · cases h
        exact Or.inr (Or.inl ⟨_, rfl⟩)
  · split at h
    · split at h
      · exact absurd h (by simp)
      · split at h
        · exact absurd h (by simp)
        · cases h
          exact Or.inr (Or.inr (Or.inl ⟨_, rfl⟩))
    · split at h
      · split at h
        · exact absurd h (by simp)
        · split at h
          · exact absurd h (by simp)
          · rename_i v _
            refine Or.inr (Or.inr (Or.inr ⟨v, ?_⟩))
            cases h
            by_cases hv : ltInf v st.best_val_loss = true
            · exact Or.inl ⟨hv, by simp [hv]⟩
            · refine Or.inr ⟨by simpa using hv, ?_⟩
              simp only [Bool.not_eq_true] at hv
              simp [hv]
      · cases h
        exact Or.inl rfl

lemma processPart_best_mono {st : TrainingState} {p : List Char} {st' : TrainingState}
    (h : processPart st p = .ok st') : infLE st'.best_val_loss st.best_val_loss := by
  rcases processPart_cases st p st' h with rfl | ⟨n, rfl⟩ | ⟨n, rfl⟩ |
    ⟨v, ⟨hv, rfl⟩ | ⟨hv, rfl⟩⟩
  · exact infLE_refl _
  · exact infLE_refl _
  · exact infLE_refl _
  · cases hb : st.best_val_loss with
    | none => simp [infLE]
    | some b =>
      have : v < b := by simpa [ltInf, hb] using hv
      simpa [infLE, hb] using this.le
  · exact infLE_refl _

lemma processParts_best_mono (ps : List (List Char)) (st : TrainingState) :
    infLE (processParts st ps).best_val_loss st.best_val_loss := by
  induction ps generalizing st with
  | nil => exact infLE_refl _
  | cons p ps ih =>
    show infLE (processParts st (p :: ps)).best_val_loss st.best_val_loss
    unfold processParts
    cases hp : processPart st p with
    | error e => exact infLE_refl _
    | ok st' => exact infLE_trans (ih st') (processPart_best_mono hp)

lemma parse_best_mono (st : TrainingState) (line : String) :
    infLE (parse_training_metrics st line).best_val_loss st.best_val_loss := by
  unfold parse_training_metrics
  split
  · exact processParts_best_mono _ _
  · exact infLE_refl _

/-- Invariant: the best loss so far equals the minimum of the observations
emitted to the metrics sink. -/
def bestIsObsMin (st : TrainingState) : Prop :=
  st.best_val_loss = obsMin (st.observations.map Prod.snd)

lemma obsMin_append_single (l : List ℚ) (v : ℚ) :
    obsMin (l ++ [v]) = minStep (obsMin l) v := by
  simp [obsMin, List.foldl_append]

lemma processPart_obsMin {st : TrainingState} {p : List Char} {st' : TrainingState}
    (h : processPart st p = .ok st') (hinv : bestIsObsMin st) : bestIsObsMin st' := by
  rcases processPart_cases st p st' h with rfl | ⟨n, rfl⟩ | ⟨n, rfl⟩ |
    ⟨v, ⟨hv, rfl⟩ | ⟨hv, rfl⟩⟩
  · exact hinv
  · exact hinv
  · exact hinv
  · show some v = obsMin ((st.observations ++ [(st.global_step, v)]).map Prod.snd)
    have hm : (st.observations ++ [(st.global_step, v)]).map Prod.snd =
        st.observations.map Prod.snd ++ [v] := by simp
    rw [hm, obsMin_append_single, ← hinv]
    cases hb : st.best_val_loss with
    | none => rfl
    | some b =>
      have hvb : v < b := by simpa [ltInf, hb] using hv
      simp [minStep, min_eq_right hvb.le]
  · show st.best_val_loss =
      obsMin ((st.observations ++ [(st.global_step, v)]).map Prod.snd)
    have hm : (st.observations ++ [(st.global_step, v)]).map Prod.snd =
        st.observations.map Prod.snd ++ [v] := by simp
    rw [hm, obsMin_append_single, ← hinv]
    cases hb : st.best_val_loss with
    | none => simp [ltInf, hb] at hv
    | some b =>
      have hvb : ¬ v < b := by simpa [ltInf, hb] using hv
      simp [minStep, min_eq_left (le_of_not_lt hvb)]

lemma processParts_obsMin (ps : List (List Char)) (st : TrainingState)
    (hinv : bestIsObsMin st) : bestIsObsMin (processParts st ps) := by
  induction ps generalizing st with
  | nil => exact hinv
  | cons p ps ih =>
    show bestIsObsMin (processParts st (p :: ps))
    unfold processParts
    cases hp : processPart st p with
    | error e => exact hinv
    | ok st' => exact ih st' (processPart_obsMin hp hinv)

lemma parse_obsMin (st : TrainingState) (line : String) (hinv : bestIsObsMin st) :
    bestIsObsMin (parse_training_metrics st line) := by
  unfold parse_training_metrics
  split
  · exact processParts_obsMin _ _ hinv
  · exact hinv

lemma foldl_parse_obsMin (lines : List String) (st : TrainingState)
    (hinv : bestIsObsMin st) : bestIsObsMin (lines.foldl parse_training_metrics st) := by
  induction lines generalizing st with
  | nil => exact hinv
  | cons line rest ih => exact ih _ (parse_obsMin st line hinv)

/-! ## Helper lemmas: the milestone fires at most once -/

lemma runLines_nil (cfg : OrchConfig) (s : OrchState) : runLines cfg s [] = s := rfl

lemma runLines_cons (cfg : OrchConfig) (s : OrchState) (ev : String × ℚ)
    (evs : List (String × ℚ)) :
    runLines cfg s (ev :: evs) = runLines cfg (processLine cfg s ev) evs := rfl

/-- Once the milestone snapshot is stored, a further line changes neither
it nor the evaluation count nor the aborted flag. -/
lemma processLine_of_some {cfg : OrchConfig} {s : OrchState} {m : MilestoneMetrics}
    (hm : s.week_5_metrics = some m) (ev : String × ℚ) :
    (processLine cfg s ev).week_5_metrics = some m ∧
    (processLine cfg s ev).evalCount = s.evalCount ∧
    (processLine cfg s ev).aborted = s.aborted := by
  unfold processLine check_week_5_milestone
  cases hab : s.aborted <;> simp [hab, hm]

lemma runLines_of_some {cfg : OrchConfig} {m : MilestoneMetrics}
    (evs : List (String × ℚ)) (s : OrchState) (hm : s.week_5_metrics = some m) :
    (runLines cfg s evs).week_5_metrics = some m ∧
    (runLines cfg s evs).evalCount = s.evalCount ∧
    (runLines cfg s evs).aborted = s.aborted := by
  induction evs generalizing s with
  | nil => exact ⟨hm, rfl, rfl⟩
  | cons ev evs ih =>
    rw [runLines_cons]
    obtain ⟨h1, h2, h3⟩ := processLine_of_some hm ev
    obtain ⟨g1, g2, g3⟩ := ih (processLine cfg s ev) h1
    exact ⟨g1, by rw [g2, h2], by rw [g3, h3]⟩

/-- A line arriving strictly before the threshold leaves a pending
evaluator pending. -/
lemma processLine_below {cfg : OrchConfig} {s : OrchState} {ev : String × ℚ}
    (hm : s.week_5_metrics = none) (hab : s.aborted = false)
    (hev : ev.2 / 86400 < cfg.week_5_threshold_days) :
    (processLine cfg s ev).week_5_metrics = none ∧
    (processLine cfg s ev).aborted = false ∧
    (processLine cfg s ev).evalCount = s.evalCount := by
  unfold processLine check_week_5_milestone
  simp [hab, hm, not_le.mpr hev]

/-- A line arriving strictly before the threshold never evaluates,
whatever the current state. -/
lemma processLine_below_count (cfg : OrchConfig) (s : OrchState) (ev : String × ℚ)
    (hev : ev.2 / 86400 < cfg.week_5_threshold_days) :
    (processLine cfg s ev).evalCount = s.evalCount := by
  cases hm : s.week_5_metrics with
  | some m => exact (processLine_of_some hm ev).2.1
  | none =>
    cases hab : s.aborted with
    | false => exact (processLine_below hm hab hev).2.2
    | true => unfold processLine; simp [hab]

/-- A pending, non-aborted evaluator fires on the first line at or past
the threshold. -/
lemma processLine_fires {cfg : OrchConfig} {s : OrchState} {ev : String × ℚ}
    (hm : s.week_5_metrics = none) (hab : s.aborted = false)
    (hev : cfg.week_5_threshold_days ≤ ev.2 / 86400) :
    ∃ m, (processLine cfg s ev).week_5_metrics = some m ∧
      (processLine cfg s ev).evalCount = s.evalCount + 1 := by
  unfold processLine check_week_5_milestone
  simp [hab, hm, hev]

lemma runLines_all_below {cfg : OrchConfig} (evs : List (String × ℚ)) (s : OrchState)
    (hm : s.week_5_metrics = none) (hab : s.aborted = false)
    (hall : ∀ ev ∈ evs, ev.2 / 86400 < cfg.week_5_threshold_days) :
    (runLines cfg s evs).week_5_metrics = none ∧
    (runLines cfg s evs).aborted = false ∧
    (runLines cfg s evs).evalCount = s.evalCount := by
  induction evs generalizing s with
  | nil => exact ⟨hm, hab, rfl⟩
  | cons ev evs ih =>
    rw [runLines_cons]
    obtain ⟨h1, h2, h3⟩ := processLine_below hm hab (hall ev (by simp))
    obtain ⟨g1, g2, g3⟩ := ih (processLine cfg s ev) h1 h2
      (fun e he => hall e (List.mem_cons_of_mem _ he))
    exact ⟨g1, g2, by rw [g3, h3]⟩

lemma runLines_fires {cfg : OrchConfig} (evs : List (String × ℚ)) (s : OrchState)
    (hm : s.week_5_metrics = none) (hab : s.aborted = false)
    (hex : ∃ ev ∈ evs, cfg.week_5_threshold_days ≤ ev.2 / 86400) :
    (runLines cfg s evs).evalCount = s.evalCount + 1 := by
  induction evs generalizing s with
  | nil => simp at hex
  | cons ev evs ih =>
    rw [runLines_cons]
    by_cases hev : cfg.week_5_threshold_days ≤ ev.2 / 86400
    · obtain ⟨m, h1, h2⟩ := processLine_fires hm hab hev
      obtain ⟨_, g2, _⟩ := runLines_of_some evs (processLine cfg s ev) h1
      rw [g2, h2]
    · obtain ⟨h1, h2, h3⟩ := processLine_below hm hab (not_le.mp hev)
      have hex' : ∃ e ∈ evs, cfg.week_5_threshold_days ≤ e.2 / 86400 := by
        rcases hex with ⟨e, he, hle⟩
        rcases List.mem_cons.mp he with rfl | he'
        · exact absurd hle hev
        · exact ⟨e, he', hle⟩
      rw [ih (processLine cfg s ev) h1 h2 hex', h3]

/-! ## Helper lemmas: the aborted flag records exactly a NO-GO decision -/

/-- `sys.exit(1)` has run exactly when the stored milestone snapshot was
decided NO-GO. -/
def abortMeansNoGo (cfg : OrchConfig) (s : OrchState) : Prop :=
  s.aborted = true ↔
    ∃ m, s.week_5_metrics = some m ∧
      (make_go_nogo_decision m cfg.go_nogo_thresholds).1 = Decision.noGo

lemma processLine_eq_fire {cfg : OrchConfig} {s : OrchState} {ev : String × ℚ}
    (hm : s.week_5_metrics = none) (hab : s.aborted = false)
    (hth : cfg.week_5_threshold_days ≤ ev.2 / 86400) :
    processLine cfg s ev =
      { ts := parse_training_metrics s.ts ev.1
        week_5_metrics := some (evaluate_week_5_performance cfg.gpu_cost_per_hour ev.2
          (parse_training_metrics s.ts ev.1))
        aborted := decide ((make_go_nogo_decision
          (evaluate_week_5_performance cfg.gpu_cost_per_hour ev.2
            (parse_training_metrics s.ts ev.1)) cfg.go_nogo_thresholds).1 = Decision.noGo)
        evalCount := s.evalCount + 1 } := by
  unfold processLine check_week_5_milestone
  simp [hab, hm, hth]

lemma processLine_abortMeansNoGo {cfg : OrchConfig} {s : OrchState} (ev : String × ℚ)
    (h : abortMeansNoGo cfg s) : abortMeansNoGo cfg (processLine cfg s ev) := by
  cases hab : s.aborted with
  | true =>
    have heq : processLine cfg s ev = s := by unfold processLine; simp [hab]
    rwa [heq]
  | false =>
    cases hm : s.week_5_metrics with
    | some m =>
      obtain ⟨h1, _, h3⟩ := processLine_of_some hm ev
      unfold abortMeansNoGo at h ⊢
      rw [h1, h3, hab]
      rw [hm, hab] at h
      exact h
    | none =>
      by_cases hth : cfg.week_5_threshold_days ≤ ev.2 / 86400
      · rw [processLine_eq_fire hm hab hth]
        unfold abortMeansNoGo
        simp
      · obtain ⟨h1, h2, _⟩ := processLine_below hm hab (not_le.mp hth)
        unfold abortMeansNoGo
        rw [h1, h2]
        simp

lemma runLines_abortMeansNoGo (cfg : OrchConfig) (evs : List (String × ℚ))
    (s : OrchState) (h : abortMeansNoGo cfg s) :
    abortMeansNoGo cfg (runLines cfg s evs) := by
  induction evs generalizing s with
  | nil => exact h
  | cons ev evs ih => exact ih _ (processLine_abortMeansNoGo ev h)

lemma initial_abortMeansNoGo (cfg : OrchConfig) : abortMeansNoGo cfg initialOrchState := by
  unfold abortMeansNoGo initialOrchState
  simp

/-! ## Concrete inputs used by the claims -/

/-- A log line reporting a negative validation loss. -/
def negLossLine : String := "Step 1 | Val Loss: -1.0"

/-- Snapshot of the C3 example: authenticity 0.30, cost $500,
best validation loss 3.0. -/
def c3Metrics : MilestoneMetrics :=
  { elapsed_days := 35, elapsed_hours := 840, cost_usd := 500, current_epoch := 5,
    best_val_loss := some 3, estimated_authenticity := 30 / 100, global_step := 1000 }

/-- Snapshot of the C4 example: authenticity 0.50, cost $550,
best validation loss 2.0. -/
def c4Metrics : MilestoneMetrics :=
  { elapsed_days := 35, elapsed_hours := 840, cost_usd := 550, current_epoch := 5,
    best_val_loss := some 2, estimated_authenticity := 50 / 100, global_step := 1000 }

/-- The validation-loss sequence [4.0, 3.2, 3.6, 2.9] of the C8 example,
as training-job log lines. -/
def c8Lines : List String :=
  ["Epoch 1/20 | Step 100 | Val Loss: 4.0",
   "Epoch 1/20 | Step 200 | Val Loss: 3.2",
   "Epoch 2/20 | Step 300 | Val Loss: 3.6",
   "Epoch 2/20 | Step 400 | Val Loss: 2.9"]

/-- A line whose Step segment is malformed but whose Epoch segment (before
it) and Val Loss segment (after it) are well-formed. -/
def c10MalformedLine : String := "Epoch 7/20 | Step oops | Val Loss: 2.0"

/-- The same line with the Step segment repaired. -/
def c10WellFormedLine : String := "Epoch 7/20 | Step 99 | Val Loss: 2.0"

/-! ## Claims -/

/-- C1 (counterexample): the claim says the authenticity proxy placed in
the snapshot equals `clamp(1 - best_val_loss / 10, 0, 1)` and is bounded
above by 1 for every value of `best_val_loss`.  The code only applies
`max(0, ...)` (line 218), so after the reachable log line
`"Step 1 | Val Loss: -1.0"` sets `best_val_loss = -1`, the snapshot's
score is 1.1: it differs from the clamp (which gives 1) and exceeds 1. -/
theorem C1_counterexample :
    (parse_training_metrics initialTrainingState negLossLine).best_val_loss = some (-1) ∧
    (evaluate_week_5_performance (13 / 10) 100
      (parse_training_metrics initialTrainingState negLossLine)).estimated_authenticity =
      11 / 10 ∧
    clampSpecAuthenticity (some (-1)) = 1 ∧
    ¬((evaluate_week_5_performance (13 / 10) 100
      (parse_training_metrics initialTrainingState negLossLine)).estimated_authenticity ≤ 1) := by
  with_unfolding_all decide

/-- C1 (amended): the snapshot's authenticity proxy equals
`max(0, 1 - best_val_loss / 10)`; it is always bounded below by 0, and it
agrees with `clamp(1 - best_val_loss / 10, 0, 1)` — in particular is
bounded above by 1 — whenever the best validation loss is non-negative,
as well as at its initial infinite value. -/
theorem C1_amended_theorem :
    (∀ (rate elapsed : ℚ) (st : TrainingState),
      (evaluate_week_5_performance rate elapsed st).estimated_authenticity =
        estimatedAuthenticity st.best_val_loss) ∧
    (∀ b : Option ℚ, 0 ≤ estimatedAuthenticity b) ∧
    (∀ l : ℚ, 0 ≤ l →
      estimatedAuthenticity (some l) = clampSpecAuthenticity (some l) ∧
      estimatedAuthenticity (some l) ≤ 1) ∧
    estimatedAuthenticity none = clampSpecAuthenticity none := by
  refine ⟨fun rate elapsed st => rfl, ?_, ?_, rfl⟩
  · intro b
    cases b with
    | none => simp [estimatedAuthenticity]
    | some l => simp [estimatedAuthenticity]
  · intro l hl
    have hle : 1 - l / 10 ≤ 1 := by
      have : 0 ≤ l / 10 := by positivity
      linarith
    have hmax : max 0 (1 - l / 10) ≤ 1 := max_le (by norm_num) hle
    constructor
    · simp [estimatedAuthenticity, clampSpecAuthenticity, min_eq_right hmax]
    · simpa [estimatedAuthenticity] using hmax

/-- C1 (witness): the amended theorem applied at best validation loss 3. -/
theorem C1_witness :
    (0 : ℚ) ≤ 3 ∧
    estimatedAuthenticity (some 3) = clampSpecAuthenticity (some 3) ∧
    estimatedAuthenticity (some 3) ≤ 1 :=
  ⟨by norm_num, (C1_amended_theorem.2.2.1 3 (by norm_num)).1,
   (C1_amended_theorem.2.2.1 3 (by norm_num)).2⟩

/-- C2: over every run, the milestone evaluation (snapshot construction
plus decision) fires at most once; if every line arrives strictly below
the threshold it never fires and the evaluator stays pending
(`week_5_metrics = none`); if some line arrives at or past the threshold
it fires exactly once; and a line strictly below the threshold never
triggers an evaluation from any state. -/
theorem C2_theorem (cfg : OrchConfig) (events : List (String × ℚ)) :
    (runLines cfg initialOrchState events).evalCount ≤ 1 ∧
    ((∀ ev ∈ events, ev.2 / 86400 < cfg.week_5_threshold_days) →
      (runLines cfg initialOrchState events).week_5_metrics = none ∧
      (runLines cfg initialOrchState events).evalCount = 0) ∧
    ((∃ ev ∈ events, cfg.week_5_threshold_days ≤ ev.2 / 86400) →
      (runLines cfg initialOrchState events).evalCount = 1) ∧
    (∀ (s : OrchState) (ev : String × ℚ), ev.2 / 86400 < cfg.week_5_threshold_days →
      (processLine cfg s ev).evalCount = s.evalCount) := by
  have hfire : (∃ ev ∈ events, cfg.week_5_threshold_days ≤ ev.2 / 86400) →
      (runLines cfg initialOrchState events).evalCount = 1 := fun hex =>
    runLines_fires events initialOrchState rfl rfl hex
  refine ⟨?_, ?_, hfire, processLine_below_count cfg⟩
  · by_cases hex : ∃ ev ∈ events, cfg.week_5_threshold_days ≤ ev.2 / 86400
    · rw [hfire hex]
    · have hall : ∀ ev ∈ events, ev.2 / 86400 < cfg.week_5_threshold_days := by
        intro ev hev
        by_contra hc
        exact hex ⟨ev, hev, le_of_not_lt hc⟩
      rw [(runLines_all_below events initialOrchState rfl rfl hall).2.2]
      decide
  · intro hall
    obtain ⟨h1, _, h3⟩ := runLines_all_below events initialOrchState rfl rfl hall
    exact ⟨h1, h3⟩

/-- C2 (witness): on a run whose single line arrives on day 0 the
evaluator stays pending; on a run whose single line arrives at
35 days (3024000 s) under the default configuration the milestone fires
exactly once. -/
theorem C2_witness :
    ((runLines defaultOrchConfig initialOrchState [("x", 0)]).week_5_metrics = none ∧
     (runLines defaultOrchConfig initialOrchState [("x", 0)]).evalCount = 0) ∧
    (runLines defaultOrchConfig initialOrchState [("", 3024000)]).evalCount = 1 :=
  ⟨(C2_theorem defaultOrchConfig [("x", 0)]).2.1
     (by intro ev hev; rw [List.mem_singleton] at hev; subst hev; with_unfolding_all decide),
   (C2_theorem defaultOrchConfig [("", 3024000)]).2.2.1
     ⟨("", 3024000), by simp, by with_unfolding_all decide⟩⟩

/-- C3: the decision is NO-GO exactly when at least one failure condition
holds (authenticity below the minimum, cost above the budget, or best
validation loss above the maximum), and the failure list contains the
corresponding reason for each failing condition, not just the first; in
particular the snapshot with authenticity 0.30, cost $500, val loss 3.0
under the default thresholds is NO-GO with an authenticity reason. -/
theorem C3_theorem :
    (∀ (m : MilestoneMetrics) (t : Thresholds),
      ((make_go_nogo_decision m t).1 = Decision.noGo ↔
        (m.estimated_authenticity < t.min_authenticity_score ∨
         t.max_cost_usd < m.cost_usd ∨
         infGt m.best_val_loss t.max_val_loss = true)) ∧
      (Reason.authenticity ∈ (make_go_nogo_decision m t).2.1 ↔
        m.estimated_authenticity < t.min_authenticity_score) ∧
      (Reason.cost ∈ (make_go_nogo_decision m t).2.1 ↔
        t.max_cost_usd < m.cost_usd) ∧
      (Reason.valLoss ∈ (make_go_nogo_decision m t).2.1 ↔
        infGt m.best_val_loss t.max_val_loss = true)) ∧
    ((make_go_nogo_decision c3Metrics defaultThresholds).1 = Decision.noGo ∧
     Reason.authenticity ∈ (make_go_nogo_decision c3Metrics defaultThresholds).2.1) := by
  constructor
  · intro m t
    simp only [make_go_nogo_decision, checkAuthenticity, checkCost, checkValLoss]
    split_ifs <;> simp_all
  · constructor <;> with_unfolding_all decide

/-- C4: when no failure condition holds, the decision is CONDITIONAL-GO
exactly when a warning condition holds (authenticity within 5 percentage
points above the minimum, or cost above 80% of the budget), and GO — with
empty failure and warning lists — otherwise; any failure condition forces
NO-GO regardless of warnings; in particular the snapshot with authenticity
0.50, cost $550, val loss 2.0 under the default thresholds is
CONDITIONAL-GO with an approaching-budget warning. -/
theorem C4_theorem :
    (∀ (m : MilestoneMetrics) (t : Thresholds),
      ¬(m.estimated_authenticity < t.min_authenticity_score) →
      ¬(t.max_cost_usd < m.cost_usd) →
      infGt m.best_val_loss t.max_val_loss = false →
      (((make_go_nogo_decision m t).1 = Decision.conditionalGo ↔
         (m.estimated_authenticity < t.min_authenticity_score + 5 / 100 ∨
          t.max_cost_usd * (8 / 10) < m.cost_usd)) ∧
       (¬(m.estimated_authenticity < t.min_authenticity_score + 5 / 100 ∨
          t.max_cost_usd * (8 / 10) < m.cost_usd) →
         (make_go_nogo_decision m t).1 = Decision.go ∧
         (make_go_nogo_decision m t).2.1 = [] ∧
         (make_go_nogo_decision m t).2.2 = []))) ∧
    (∀ (m : MilestoneMetrics) (t : Thresholds),
      (m.estimated_authenticity < t.min_authenticity_score ∨
       t.max_cost_usd < m.cost_usd ∨
       infGt m.best_val_loss t.max_val_loss = true) →
      (make_go_nogo_decision m t).1 = Decision.noGo) ∧
    ((make_go_nogo_decision c4Metrics defaultThresholds).1 = Decision.conditionalGo ∧
     Warning.costApproaching ∈ (make_go_nogo_decision c4Metrics defaultThresholds).2.2) := by
  refine ⟨?_, ?_, by constructor <;> with_unfolding_all decide⟩
  · intro m t h1 h2 h3
    simp only [make_go_nogo_decision, checkAuthenticity, checkCost, checkValLoss]
    split_ifs <;> simp_all
  · intro m t h
    simp only [make_go_nogo_decision, checkAuthenticity, checkCost, checkValLoss]
    split_ifs <;> simp_all

/-- C4 (witness): the first part of the theorem applied to the C4 example
snapshot, whose three failure conditions indeed all fail to hold. -/
theorem C4_witness :
    (¬(c4Metrics.estimated_authenticity < defaultThresholds.min_authenticity_score) ∧
     ¬(defaultThresholds.max_cost_usd < c4Metrics.cost_usd) ∧
     infGt c4Metrics.best_val_loss defaultThresholds.max_val_loss = false) ∧
    (make_go_nogo_decision c4Metrics defaultThresholds).1 = Decision.conditionalGo :=
  ⟨⟨by with_unfolding_all decide, by with_unfolding_all decide,
    by with_unfolding_all decide⟩,
   ((C4_theorem.1 c4Metrics defaultThresholds
      (by with_unfolding_all decide) (by with_unfolding_all decide)
      (by with_unfolding_all decide)).1).mpr
     (Or.inr (by with_unfolding_all decide))⟩

/-- C5 (counterexample): the claim says the status emitted after the
NO-GO abort report is distinct from the generic failure code.  It is not:
`abort_training` exits with status 1 (line 316), the same status the
interpreter uses for an uncaught orchestrator error such as a malformed
configuration file.  (The run below crosses the 35-day threshold with no
observed validation loss, so the milestone decides NO-GO and aborts.) -/
theorem C5_counterexample :
    runExitStatus defaultOrchConfig [("", 3024000)] 0 = 1 ∧
    runExitStatus defaultOrchConfig [("", 3024000)] 0 = pythonUncaughtExitStatus := by
  constructor <;> with_unfolding_all decide

/-- C5 (amended): the orchestrator's own exit status is 0 or 1; it is 1
exactly when the milestone decision was NO-GO (so GO and CONDITIONAL-GO
runs exit 0, as do runs whose training child exits nonzero, whatever
`childCode` is); and an uncaught startup error exits with the interpreter's
generic failure status 1 — the same value as the NO-GO escalation status,
which is therefore not distinct from it. -/
theorem C5_amended_theorem (cfg : OrchConfig) (events : List (String × ℚ))
    (childCode : Int) :
    (runExitStatus cfg events childCode = 0 ∨ runExitStatus cfg events childCode = 1) ∧
    (runExitStatus cfg events childCode = 1 ↔
      ∃ m, (runLines cfg initialOrchState events).week_5_metrics = some m ∧
        (make_go_nogo_decision m cfg.go_nogo_thresholds).1 = Decision.noGo) ∧
    pythonUncaughtExitStatus = 1 := by
  have hinv := runLines_abortMeansNoGo cfg events initialOrchState
    (initial_abortMeansNoGo cfg)
  unfold abortMeansNoGo at hinv
  refine ⟨?_, ?_, rfl⟩
  · unfold runExitStatus
    cases (runLines cfg initialOrchState events).aborted
    · exact Or.inl (if_neg (by simp))
    · exact Or.inr (if_pos rfl)
  · unfold runExitStatus
    cases hab : (runLines cfg initialOrchState events).aborted with
    | false =>
      rw [hab] at hinv
      have hno : ¬∃ m, (runLines cfg initialOrchState events).week_5_metrics = some m ∧
          (make_go_nogo_decision m cfg.go_nogo_thresholds).1 = Decision.noGo :=
        fun h => by simpa using hinv.mpr h
      simp [hno]
    | true =>
      rw [hab] at hinv
      simp [hinv.mp rfl]

/-- C6 (counterexample): the claim says unknown keys of the document are
ignored and have no effect on the resulting configuration.  They are not:
`default_config.update(custom_config)` (line 79) inserts them, so a
document defining only the unrecognized key "mystery_key" yields a
configuration that contains it, unlike the configuration loaded from an
empty document. -/
theorem C6_counterexample :
    load_config [("mystery_key", ConfigValue.rat 1)] "mystery_key" =
      some (ConfigValue.rat 1) ∧
    load_config [] "mystery_key" = none := by
  constructor <;> with_unfolding_all decide

/-- C6 (amended): recognized keys behave as claimed — a key specified in
the document takes the document's value and an unspecified key falls back
to the built-in default — but an unknown key of the document is merged
into the resulting configuration rather than ignored. -/
theorem C6_amended_theorem (custom : List (String × ConfigValue)) (k : String) :
    (List.lookup k custom = none → load_config custom k = List.lookup k default_config) ∧
    (∀ v, List.lookup k custom = some v → load_config custom k = some v) := by
  constructor
  · intro h
    simp [load_config, h]
  · intro v h
    simp [load_config, h]

/-- C6 (witness): the amended theorem applied to a document that overrides
`batch_size`. -/
theorem C6_witness :
    List.lookup "batch_size" [("batch_size", ConfigValue.rat 4)] =
      some (ConfigValue.rat 4) ∧
    load_config [("batch_size", ConfigValue.rat 4)] "batch_size" =
      some (ConfigValue.rat 4) :=
  ⟨by with_unfolding_all decide,
   (C6_amended_theorem [("batch_size", ConfigValue.rat 4)] "batch_size").2
     (ConfigValue.rat 4) (by with_unfolding_all decide)⟩

/-- C7: `main` parses the resume flag but never reads it — startup with
the flag set is identical to startup without it, and no checkpoint-load
operation is invoked on any path, contradicting the claimed
reload-and-re-attach behavior. -/
theorem C7_theorem (doc : Option (List (String × ConfigValue))) :
    mainStartup { config := doc, resume := true } =
      mainStartup { config := doc, resume := false } ∧
    (mainStartup { config := doc, resume := true }).2 = 0 :=
  ⟨rfl, rfl⟩

/-- C8: the best validation loss never increases across a processed line,
from any state; from the initial state it always equals the minimum of the
successfully extracted validation-loss observations (those emitted to the
metrics sink), `none` standing for the initial infinity when there are
none; and after the observation sequence [4.0, 3.2, 3.6, 2.9] it equals
2.9. -/
theorem C8_theorem :
    (∀ (st : TrainingState) (line : String),
      infLE (parse_training_metrics st line).best_val_loss st.best_val_loss) ∧
    (∀ lines : List String,
      (lines.foldl parse_training_metrics initialTrainingState).best_val_loss =
        obsMin ((lines.foldl parse_training_metrics
          initialTrainingState).observations.map Prod.snd)) ∧
    (c8Lines.foldl parse_training_metrics initialTrainingState).best_val_loss =
      some (29 / 10) := by
  refine ⟨parse_best_mono, ?_, by with_unfolding_all decide⟩
  intro lines
  exact foldl_parse_obsMin lines initialTrainingState rfl

/-- C9: when no validation loss has been extracted before the milestone
fires (best loss still at its initial infinity), the snapshot's
authenticity proxy evaluates to 0 and the decision under the default
thresholds is NO-GO, with both the authenticity failure and the
validation-loss failure among the reasons — for any elapsed time. -/
theorem C9_theorem (st : TrainingState) (elapsed : ℚ)
    (h : st.best_val_loss = none) :
    (evaluate_week_5_performance defaultOrchConfig.gpu_cost_per_hour elapsed
      st).estimated_authenticity = 0 ∧
    (make_go_nogo_decision (evaluate_week_5_performance
      defaultOrchConfig.gpu_cost_per_hour elapsed st) defaultThresholds).1 =
      Decision.noGo ∧
    Reason.authenticity ∈ (make_go_nogo_decision (evaluate_week_5_performance
      defaultOrchConfig.gpu_cost_per_hour elapsed st) defaultThresholds).2.1 ∧
    Reason.valLoss ∈ (make_go_nogo_decision (evaluate_week_5_performance
      defaultOrchConfig.gpu_cost_per_hour elapsed st) defaultThresholds).2.1 := by
  simp only [evaluate_week_5_performance, make_go_nogo_decision, checkAuthenticity,
    checkCost, checkValLoss, h, estimatedAuthenticity, infGt, defaultThresholds]
  norm_num
  split_ifs <;> simp_all

/-- C9 (witness): the theorem applied to the initial training state at
35 elapsed days. -/
theorem C9_witness :
    initialTrainingState.best_val_loss = none ∧
    (make_go_nogo_decision (evaluate_week_5_performance
      defaultOrchConfig.gpu_cost_per_hour 3024000 initialTrainingState)
      defaultThresholds).1 = Decision.noGo :=
  ⟨rfl, (C9_theorem initialTrainingState 3024000 rfl).2.1⟩

/-- C10: metric extraction from one line is not atomic.  On the line
"Epoch 7/20 | Step oops | Val Loss: 2.0" the Epoch segment updates the
epoch to 7, the malformed Step segment then raises, the exception is
swallowed, and the already-applied epoch update is retained while the step
and the (well-formed, but later) Val Loss segment are not applied; with
the Step segment repaired, all three segments apply left to right. -/
theorem C10_theorem :
    parse_training_metrics initialTrainingState c10MalformedLine =
      { current_epoch := 7, global_step := 0, best_val_loss := none,
        observations := [] } ∧
    parse_training_metrics initialTrainingState c10WellFormedLine =
      { current_epoch := 7, global_step := 99, best_val_loss := some 2,
        observations := [(99, 2)] } ∧
    (7 : Int) ≠ initialTrainingState.current_epoch := by
  refine ⟨?_, ?_, ?_⟩ <;> with_unfolding_all decide

end Orchestrator
